import Mathlib

/-!
Verification of the snapshot-registry core (`SnapshotManager.js`) of jungle-db.

The JS heap is modelled explicitly: snapshots are mutable objects identified by
an `ObjId`; a heap maps ids to snapshot states.  The `SnapshotManager`'s
`_snapshots` field is a JS `Set`, modelled as an insertion-ordered duplicate-free
list of ids (`setAdd` reproduces `Set.prototype.add`, `List.filter` together
with a membership test reproduces `Set.prototype.delete`).  JS promises are
modelled by a three-state type (`pending` / `resolved` / `rejected`) and
`promiseAll` reproduces the settling behaviour of `Promise.all`.
-/

namespace JungleDB

/-- Identity of a JS heap object. -/
abbrev ObjId := Nat

/-- State of one `Snapshot` object: its `_backend` reference and its sparse
diff of pre-images (key to value-or-tombstone).  Only the fields the registry
touches are modelled; `Snapshot.js` itself is not part of the fragment. -/
structure Snapshot where
  backend : ObjId
  diff : List (Nat × Option Nat)
deriving Repr, DecidableEq

/-- The mutable heap of snapshot objects. -/
abbrev Heap := ObjId → Snapshot

/-- Assignment to one heap object (JS field mutation). -/
def hUpdate (h : Heap) (i : ObjId) (s : Snapshot) : Heap :=
  fun j => if j = i then s else h j

/-- State of a `SnapshotManager`: its `_snapshots` JS `Set`, kept as an
insertion-ordered list of object ids. -/
structure SnapshotManager where
  snapshots : List ObjId
deriving Repr, DecidableEq

/-- `Set.prototype.add`: appends the element unless already present
(existing members keep their position, as JS sets do). -/
def setAdd (l : List ObjId) (x : ObjId) : List ObjId :=
  if x ∈ l then l else l ++ [x]

/-- A `Transaction` as far as the registry consumes it: its own nested
`_snapshotManager` and its write-set of (key, new value-or-tombstone) pairs. -/
structure Transaction where
  snapshotManager : SnapshotManager
  writes : List (Nat × Option Nat)

/-- An arbitrary JS value passed to `applyTx`: either a `Transaction` instance
or some non-transaction value (the `instanceof` check distinguishes them). -/
inductive JsValue where
  | transaction (tx : Transaction)
  | other (tag : Nat)

/-- Errors of the subsystem: the bare string thrown by `applyTx`'s
`instanceof` guard (the spec's `InvalidArgumentError`), and a failure inside
one snapshot's `_apply` capture (the spec's `CaptureFailure`). -/
inductive JsError where
  | invalidArgument (msg : String)
  | captureFailure (code : Nat)
deriving Repr, DecidableEq

/-- State of a JS promise at the instant it is awaited. -/
inductive PromiseState (α : Type) where
  | pending
  | resolved (v : α)
  | rejected (e : JsError)
deriving Repr, DecidableEq

/-- The rejection reason of a promise, if it is rejected. -/
def rejectionOf : PromiseState α → Option JsError
  | .pending => none
  | .resolved _ => none
  | .rejected e => some e

/-- Whether a promise has settled fulfilled. -/
def isSettledResolved : PromiseState α → Bool
  | .pending => false
  | .resolved _ => true
  | .rejected _ => false

/-- The reason of the first rejected promise in the list, if any. -/
def firstRejection : List (PromiseState Unit) → Option JsError
  | [] => none
  | p :: ps =>
    match rejectionOf p with
    | some e => some e
    | none => firstRejection ps

/-- `Promise.all`: rejected as soon as any input is rejected, resolved with
the list of values once every input has fulfilled, pending otherwise. -/
def promiseAll (ps : List (PromiseState Unit)) : PromiseState (List Unit) :=
  match firstRejection ps with
  | some e => .rejected e
  | none =>
    if ps.all isSettledResolved then .resolved (ps.map fun _ => ()) else .pending

/-- Modelled from the spec: `Snapshot._apply(tx)` is code of this repository
not present in the fragment (`Snapshot.js` is missing).  Per §4.1 it mutates
only the snapshot's own `diff` (pre-image capture) and, being async, yields a
promise.  Both effects are kept parametric: `newDiff i` is the diff of
snapshot `i` after its capture, `outcome i` the settled state of its promise. -/
structure CaptureModel where
  newDiff : ObjId → List (Nat × Option Nat)
  outcome : ObjId → PromiseState Unit

/-- The first loop of `applyTx`: `for (const snapshot of this._snapshots)
applications.push(snapshot._apply(tx))` — each registered snapshot's capture
runs, mutating that snapshot's diff. -/
def captureLoop (cap : CaptureModel) : List ObjId → Heap → Heap
  | [], h => h
  | i :: l, h => captureLoop cap l (hUpdate h i { h i with diff := cap.newDiff i })

/-- The second loop of `applyTx`: `for (const snapshot of tx._snapshotManager)
{ snapshot._backend = this; this._snapshots.add(snapshot); }` — each snapshot
of the transaction's registry has its backend re-pointed to `this` and is
added to this registry's set (`acc`). -/
def adoptLoop (self : ObjId) : List ObjId → Heap → List ObjId → Heap × List ObjId
  | [], h, acc => (h, acc)
  | i :: l, h, acc =>
      adoptLoop self l (hUpdate h i { h i with backend := self }) (setAdd acc i)

/-- Result of a call to `applyTx`: the registry's new state, the transaction's
registry contents after the call, the heap, the list of snapshots whose
`_apply` was invoked, and the state of the returned promise. -/
structure ApplyOutcome where
  mgr : SnapshotManager
  txReg : List ObjId
  heap : Heap
  applied : List ObjId
  promise : PromiseState (List Unit)

/-- `SnapshotManager.applyTx(tx)`, translated from the source.  `self` is the
object id of this `SnapshotManager` instance (the value of `this`).  A
non-transaction argument makes the async function throw, i.e. return a
rejected promise, with everything else untouched.  Otherwise: capture fan-out
over the registered snapshots, then the adoption loop (which never deletes
from `tx`'s registry), then `Promise.all` over the collected applications. -/
def applyTx (self : ObjId) (mgr : SnapshotManager) (h : Heap) (cap : CaptureModel)
    (v : JsValue) : ApplyOutcome :=
  match v with
  | .other _ =>
      { mgr := mgr, txReg := [], heap := h, applied := [],
        promise := .rejected (.invalidArgument "Can only apply transactions") }
  | .transaction tx =>
      let applications := mgr.snapshots.map cap.outcome
      let h1 := captureLoop cap mgr.snapshots h
      let ad := adoptLoop self tx.snapshotManager.snapshots h1 mgr.snapshots
      { mgr := ⟨ad.2⟩, txReg := tx.snapshotManager.snapshots, heap := ad.1,
        applied := mgr.snapshots, promise := promiseAll applications }

/-- The backing key/value store's visible state. -/
abbrev Store := Nat → Option Nat

/-- Apply a write-set to the store (later writes win). -/
def applyWrites (st : Store) (ws : List (Nat × Option Nat)) : Store :=
  ws.foldl (fun s kv => fun k => if k = kv.1 then kv.2 else s k) st

/-- Result of a full commit: the `applyTx` outcome plus the store's state. -/
structure CommitOutcome where
  outcome : ApplyOutcome
  store : Store

/-- Modelled from the spec: the store-mutation half of a commit is not in the
fragment (§4.2 step 3, §5 — the backend applies `tx`'s write-set only after
the registry's `applyTx` promise has resolved; capture and mutation form one
atomic unit).  If the capture promise is not resolved, the store is left
unchanged. -/
def commitTx (self : ObjId) (mgr : SnapshotManager) (h : Heap) (cap : CaptureModel)
    (tx : Transaction) (store : Store) : CommitOutcome :=
  match (applyTx self mgr h cap (.transaction tx)).promise with
  | .resolved _ =>
      ⟨applyTx self mgr h cap (.transaction tx), applyWrites store tx.writes⟩
  | _ => ⟨applyTx self mgr h cap (.transaction tx), store⟩

/-- `SnapshotManager.abortSnapshot(snapshot)`: `this._snapshots.delete(s)` —
returns whether the snapshot was present and removes it; no heap object is
touched. -/
def abortSnapshot (mgr : SnapshotManager) (h : Heap) (s : ObjId) :
    Bool × SnapshotManager × Heap :=
  (decide (s ∈ mgr.snapshots), ⟨mgr.snapshots.filter (fun y => y ≠ s)⟩, h)

/-- `SnapshotManager.createSnapshot(objectStore, backend)`: allocates a fresh
`Snapshot` object (`fresh` is the new object's id, not previously allocated),
adds it to the set, returns it.  The `Snapshot` constructor is not in the
fragment; modelled from the spec (§4.2): a new snapshot starts with an empty
diff and the given backend. -/
def createSnapshot (mgr : SnapshotManager) (h : Heap) (fresh backendArg : ObjId) :
    ObjId × SnapshotManager × Heap :=
  (fresh, ⟨setAdd mgr.snapshots fresh⟩, hUpdate h fresh ⟨backendArg, []⟩)

/-- Modelled from the spec: the claim of §4.3/§6 that adoption re-points each
adopted snapshot's backend to the registry's *owner* — the parent
store/backend object bound to the registry, given here as a separate object
reference `ownerId`. -/
def specAdoptionRepointsToOwner (self ownerId : ObjId) (mgr : SnapshotManager)
    (h : Heap) (cap : CaptureModel) (tx : Transaction) : Prop :=
  ∀ s ∈ tx.snapshotManager.snapshots,
    ((applyTx self mgr h cap (.transaction tx)).heap s).backend = ownerId

/-! ### Helper lemmas -/

theorem setAdd_mem {l : List ObjId} {a x : ObjId} :
    x ∈ setAdd l a ↔ x ∈ l ∨ x = a := by
  unfold setAdd
  split
  · constructor
    · exact fun hx => Or.inl hx
    · rintro (hx | rfl) <;> [exact hx; assumption]
  · simp [List.mem_append]

theorem adoptLoop_heap (self : ObjId) (l : List ObjId) (h : Heap) (acc : List ObjId)
    (s : ObjId) :
    (adoptLoop self l h acc).1 s =
      if s ∈ l then { h s with backend := self } else h s := by
  induction l generalizing h acc with
  | nil => simp [adoptLoop]
  | cons i l ih =>
    rw [adoptLoop, ih]
    by_cases hsl : s ∈ l
    · simp only [hsl, if_true, List.mem_cons, or_true, if_true, hUpdate]
      by_cases hsi : s = i
      · subst hsi; simp
      · simp [hsi]
    · simp only [hsl, if_false, hUpdate, List.mem_cons, or_false]
      by_cases hsi : s = i
      · subst hsi; simp
      · simp [hsi]

theorem adoptLoop_acc_mem (self : ObjId) (l : List ObjId) (h : Heap) (acc : List ObjId)
    (x : ObjId) :
    x ∈ (adoptLoop self l h acc).2 ↔ x ∈ acc ∨ x ∈ l := by
  induction l generalizing h acc with
  | nil => simp [adoptLoop]
  | cons i l ih =>
    rw [adoptLoop, ih, setAdd_mem]
    simp [List.mem_cons]
    tauto

theorem firstRejection_some_of_mem {ps : List (PromiseState Unit)}
    {p : PromiseState Unit} {e : JsError} (hp : p ∈ ps) (he : p = .rejected e) :
    ∃ e2, firstRejection ps = some e2 := by
  induction ps with
  | nil => cases hp
  | cons q qs ih =>
    rcases List.mem_cons.mp hp with rfl | hp
    · subst he
      exact ⟨e, rfl⟩
    · rcases ih hp with ⟨e2, he2⟩
      cases hr : rejectionOf q with
      | none => exact ⟨e2, by rw [firstRejection, hr, he2]⟩
      | some e3 => exact ⟨e3, by rw [firstRejection, hr]⟩

theorem promiseAll_resolved {ps : List (PromiseState Unit)} {vs : List Unit}
    (h : promiseAll ps = .resolved vs) : ∀ p ∈ ps, p = .resolved () := by
  intro p hp
  cases hfr : firstRejection ps with
  | some e => simp [promiseAll, hfr] at h
  | none =>
    simp only [promiseAll, hfr] at h
    split at h
    · rename_i hall
      have hres := List.all_eq_true.mp hall p hp
      cases p with
      | pending => cases hres
      | rejected e => cases hres
      | resolved v => cases v; rfl
    · cases h

theorem promiseAll_rejected {ps : List (PromiseState Unit)}
    (h : ∃ p ∈ ps, ∃ e, p = .rejected e) : ∃ e, promiseAll ps = .rejected e := by
  rcases h with ⟨p, hp, e, he⟩
  rcases firstRejection_some_of_mem hp he with ⟨e2, he2⟩
  exact ⟨e2, by rw [promiseAll, he2]⟩

theorem applyTx_promise_eq (self : ObjId) (mgr : SnapshotManager) (h : Heap)
    (cap : CaptureModel) (tx : Transaction) :
    (applyTx self mgr h cap (.transaction tx)).promise =
      promiseAll (mgr.snapshots.map cap.outcome) := rfl

theorem applyTx_applied_eq (self : ObjId) (mgr : SnapshotManager) (h : Heap)
    (cap : CaptureModel) (tx : Transaction) :
    (applyTx self mgr h cap (.transaction tx)).applied = mgr.snapshots := rfl

theorem applyTx_mgr_eq (self : ObjId) (mgr : SnapshotManager) (h : Heap)
    (cap : CaptureModel) (tx : Transaction) :
    (applyTx self mgr h cap (.transaction tx)).mgr.snapshots =
      (adoptLoop self tx.snapshotManager.snapshots
        (captureLoop cap mgr.snapshots h) mgr.snapshots).2 := rfl

theorem applyTx_heap_eq (self : ObjId) (mgr : SnapshotManager) (h : Heap)
    (cap : CaptureModel) (tx : Transaction) :
    (applyTx self mgr h cap (.transaction tx)).heap =
      (adoptLoop self tx.snapshotManager.snapshots
        (captureLoop cap mgr.snapshots h) mgr.snapshots).1 := rfl

theorem filter_ne_idem (l : List ObjId) (s : ObjId) :
    (l.filter (fun y => y ≠ s)).filter (fun y => y ≠ s) =
      l.filter (fun y => y ≠ s) := by
  apply List.filter_eq_self.mpr
  intro a ha
  exact (List.mem_filter.mp ha).2

/-! ### Concrete fixtures for witnesses and counterexamples -/

/-- A registry holding the snapshots with ids 1 and 2. -/
def mgr0 : SnapshotManager := ⟨[1, 2]⟩

/-- A heap where every snapshot object initially points at backend 9. -/
def heap0 : Heap := fun _ => ⟨9, []⟩

/-- A capture behaviour where snapshot 2's `_apply` promise rejects and every
other snapshot's capture resolves. -/
def cap0 : CaptureModel :=
  ⟨fun _ => [(0, some 1)],
   fun i => if i = 2 then .rejected (.captureFailure 7) else .resolved ()⟩

/-- A capture behaviour where every snapshot's `_apply` promise resolves. -/
def capOk : CaptureModel := ⟨fun _ => [(0, some 1)], fun _ => .resolved ()⟩

/-- A transaction whose nested registry holds the snapshot with id 5 and whose
write-set sets key 0 to 3. -/
def tx0 : Transaction := ⟨⟨[5]⟩, [(0, some 3)]⟩

/-- A store where key 0 holds 1 and all other keys are absent. -/
def store0 : Store := fun k => if k = 0 then some 1 else none

/-! ### Claims -/

/-- C1: the claim that `applyTx(tx)` re-points each adopted snapshot's backend
to the registry's owner (a parent store/backend object distinct from the
registry) is false: the source assigns `snapshot._backend = this`, i.e. the
`SnapshotManager` instance itself.  Counterexample: manager object 0, owner
object 1, adopted snapshot 5 — after `applyTx` the snapshot's backend is 0,
not 1. -/
theorem c1_counterexample : ¬ specAdoptionRepointsToOwner 0 1 mgr0 heap0 capOk tx0 := by
  unfold specAdoptionRepointsToOwner
  decide

/-- C1 (amended): for every snapshot registered in `tx`'s own nested registry,
`applyTx(tx)` re-points that snapshot's backend reference to this
`SnapshotManager` instance itself (the value of `this`), not to a separately
bound owner object. -/
theorem c1_adoption_repoints_to_self (self : ObjId) (mgr : SnapshotManager)
    (h : Heap) (cap : CaptureModel) (tx : Transaction) :
    ∀ s ∈ tx.snapshotManager.snapshots,
      ((applyTx self mgr h cap (.transaction tx)).heap s).backend = self := by
  intro s hs
  rw [applyTx_heap_eq, adoptLoop_heap]
  simp [hs]

theorem c1_adoption_repoints_to_self_witness :
    ((applyTx 0 mgr0 heap0 capOk (.transaction tx0)).heap 5).backend = 0 :=
  c1_adoption_repoints_to_self 0 mgr0 heap0 capOk tx0 5 (by decide)

/-- C2: if capturing the pre-image for any single registered snapshot fails
during `applyTx(tx)`, the store-mutation half of the commit does not proceed
and the backing store's visible state is left entirely unchanged. -/
theorem c2_capture_failure_keeps_store (self : ObjId) (mgr : SnapshotManager)
    (h : Heap) (cap : CaptureModel) (tx : Transaction) (store : Store)
    (hfail : ∃ i ∈ mgr.snapshots, ∃ e, cap.outcome i = .rejected e) :
    (commitTx self mgr h cap tx store).store = store := by
  rcases hfail with ⟨i, hi, e, he⟩
  rcases promiseAll_rejected ⟨cap.outcome i, List.mem_map_of_mem _ hi, e, he⟩ with ⟨e2, he2⟩
  have hp : (applyTx self mgr h cap (.transaction tx)).promise = .rejected e2 := by
    rw [applyTx_promise_eq]; exact he2
  unfold commitTx
  rw [hp]

theorem c2_capture_failure_keeps_store_witness :
    (commitTx 0 mgr0 heap0 cap0 tx0 store0).store = store0 :=
  c2_capture_failure_keeps_store 0 mgr0 heap0 cap0 tx0 store0
    ⟨2, by decide, .captureFailure 7, by decide⟩

/-- C3: `_apply(tx)` is invoked exactly on the snapshots that were members of
this registry when `applyTx(tx)` started; a snapshot adopted from `tx`'s own
nested registry that was not already a member is applied zero times in that
call. -/
theorem c3_adopted_not_applied (self : ObjId) (mgr : SnapshotManager)
    (h : Heap) (cap : CaptureModel) (tx : Transaction) :
    (applyTx self mgr h cap (.transaction tx)).applied = mgr.snapshots ∧
    ∀ s ∈ tx.snapshotManager.snapshots, s ∉ mgr.snapshots →
      s ∉ (applyTx self mgr h cap (.transaction tx)).applied := by
  refine ⟨rfl, ?_⟩
  intro s _ hnot
  rw [applyTx_applied_eq]
  exact hnot

theorem c3_adopted_not_applied_witness :
    5 ∉ (applyTx 0 mgr0 heap0 capOk (.transaction tx0)).applied :=
  (c3_adopted_not_applied 0 mgr0 heap0 capOk tx0).2 5 (by decide) (by decide)

/-- C4: the claim that after `applyTx(tx)` an adopted snapshot is no longer a
member of `tx`'s nested registry is false: the source only adds the snapshot
to `this._snapshots` and never deletes it from `tx._snapshotManager`.
Counterexample: snapshot 5 is adopted into the registry yet still sits in the
transaction's registry afterwards. -/
theorem c4_counterexample :
    ¬ (5 ∈ (applyTx 0 mgr0 heap0 capOk (.transaction tx0)).mgr.snapshots ∧
       5 ∉ (applyTx 0 mgr0 heap0 capOk (.transaction tx0)).txReg) := by
  decide

/-- C4 (amended): adoption during `applyTx(tx)` adds every snapshot of `tx`'s
nested registry to this registry, but does not remove it from `tx`'s nested
registry, which is left unchanged. -/
theorem c4_adoption_adds_without_removing (self : ObjId) (mgr : SnapshotManager)
    (h : Heap) (cap : CaptureModel) (tx : Transaction) :
    (∀ s ∈ tx.snapshotManager.snapshots,
       s ∈ (applyTx self mgr h cap (.transaction tx)).mgr.snapshots) ∧
    (applyTx self mgr h cap (.transaction tx)).txReg = tx.snapshotManager.snapshots := by
  refine ⟨?_, rfl⟩
  intro s hs
  rw [applyTx_mgr_eq]
  exact (adoptLoop_acc_mem _ _ _ _ _).mpr (Or.inr hs)

theorem c4_adoption_adds_without_removing_witness :
    5 ∈ (applyTx 0 mgr0 heap0 capOk (.transaction tx0)).mgr.snapshots :=
  (c4_adoption_adds_without_removing 0 mgr0 heap0 capOk tx0).1 5 (by decide)

/-- C5: `applyTx(tx)` invokes `_apply(tx)` on every currently registered
snapshot, and the returned promise resolves only after all of those capture
invocations have settled fulfilled (fan-out/fan-in, not fire-and-forget). -/
theorem c5_fanout_fanin (self : ObjId) (mgr : SnapshotManager)
    (h : Heap) (cap : CaptureModel) (tx : Transaction) :
    (applyTx self mgr h cap (.transaction tx)).applied = mgr.snapshots ∧
    ∀ vs, (applyTx self mgr h cap (.transaction tx)).promise = .resolved vs →
      ∀ i ∈ mgr.snapshots, cap.outcome i = .resolved () := by
  refine ⟨rfl, ?_⟩
  intro vs hres i hi
  rw [applyTx_promise_eq] at hres
  exact promiseAll_resolved hres (cap.outcome i) (List.mem_map_of_mem _ hi)

theorem c5_fanout_fanin_witness : capOk.outcome 1 = .resolved () :=
  (c5_fanout_fanin 0 mgr0 heap0 capOk tx0).2 [(), ()] (by decide) 1 (by decide)

/-- C6: if the `_apply` capture of any registered snapshot fails during
`applyTx(tx)`, the returned promise is rejected — a single aggregated failure
surfaces to the caller and no success is reported. -/
theorem c6_capture_failure_surfaces (self : ObjId) (mgr : SnapshotManager)
    (h : Heap) (cap : CaptureModel) (tx : Transaction)
    (hfail : ∃ i ∈ mgr.snapshots, ∃ e, cap.outcome i = .rejected e) :
    ∃ e, (applyTx self mgr h cap (.transaction tx)).promise = .rejected e := by
  rcases hfail with ⟨i, hi, e, he⟩
  rw [applyTx_promise_eq]
  exact promiseAll_rejected ⟨cap.outcome i, List.mem_map_of_mem _ hi, e, he⟩

theorem c6_capture_failure_surfaces_witness :
    ∃ e, (applyTx 0 mgr0 heap0 cap0 (.transaction tx0)).promise = .rejected e :=
  c6_capture_failure_surfaces 0 mgr0 heap0 cap0 tx0
    ⟨2, by decide, .captureFailure 7, by decide⟩

/-- C7: applying a non-transaction value makes `applyTx` fail with the
invalid-argument error (the thrown string `Can only apply transactions`); no
snapshot's `_apply` is invoked and both the registry's snapshot set and the
heap are left unchanged. -/
theorem c7_non_transaction_rejected (self : ObjId) (mgr : SnapshotManager)
    (h : Heap) (cap : CaptureModel) (t : Nat) :
    (applyTx self mgr h cap (.other t)).promise =
        .rejected (.invalidArgument "Can only apply transactions") ∧
    (applyTx self mgr h cap (.other t)).applied = [] ∧
    (applyTx self mgr h cap (.other t)).mgr = mgr ∧
    (applyTx self mgr h cap (.other t)).heap = h :=
  ⟨rfl, rfl, rfl, rfl⟩

/-- C8: `abortSnapshot(s)` removes `s` from the registry if present and
returns whether it was present; calling it twice on the same `s` returns
`true` then `false`, and the second call leaves the registry unchanged. -/
theorem c8_abort_idempotent (mgr : SnapshotManager) (h : Heap) (s : ObjId)
    (hs : s ∈ mgr.snapshots) :
    (abortSnapshot mgr h s).1 = true ∧
    s ∉ (abortSnapshot mgr h s).2.1.snapshots ∧
    (abortSnapshot (abortSnapshot mgr h s).2.1 (abortSnapshot mgr h s).2.2 s).1 = false ∧
    (abortSnapshot (abortSnapshot mgr h s).2.1 (abortSnapshot mgr h s).2.2 s).2.1 =
      (abortSnapshot mgr h s).2.1 := by
  refine ⟨by simp [abortSnapshot, hs], ?_, ?_, ?_⟩
  · simp [abortSnapshot, List.mem_filter]
  · simp [abortSnapshot, List.mem_filter]
  · simp [abortSnapshot, filter_ne_idem]

theorem c8_abort_idempotent_witness :
    (abortSnapshot mgr0 heap0 1).1 = true ∧
    1 ∉ (abortSnapshot mgr0 heap0 1).2.1.snapshots ∧
    (abortSnapshot (abortSnapshot mgr0 heap0 1).2.1 (abortSnapshot mgr0 heap0 1).2.2 1).1 =
      false ∧
    (abortSnapshot (abortSnapshot mgr0 heap0 1).2.1 (abortSnapshot mgr0 heap0 1).2.2 1).2.1 =
      (abortSnapshot mgr0 heap0 1).2.1 :=
  c8_abort_idempotent mgr0 heap0 1 (by decide)

/-- C9: even when `applyTx(tx)` fails because some registered snapshot's
capture rejects, the adoption step has taken effect: every snapshot of `tx`'s
nested registry is a member of this registry with its backend re-pointed to
the manager, while the returned promise is rejected. -/
theorem c9_adoption_survives_failure (self : ObjId) (mgr : SnapshotManager)
    (h : Heap) (cap : CaptureModel) (tx : Transaction)
    (hfail : ∃ i ∈ mgr.snapshots, ∃ e, cap.outcome i = .rejected e) :
    (∃ e, (applyTx self mgr h cap (.transaction tx)).promise = .rejected e) ∧
    ∀ s ∈ tx.snapshotManager.snapshots,
      s ∈ (applyTx self mgr h cap (.transaction tx)).mgr.snapshots ∧
      ((applyTx self mgr h cap (.transaction tx)).heap s).backend = self := by
  constructor
  · rcases hfail with ⟨i, hi, e, he⟩
    rw [applyTx_promise_eq]
    exact promiseAll_rejected ⟨cap.outcome i, List.mem_map_of_mem _ hi, e, he⟩
  · intro s hs
    constructor
    · rw [applyTx_mgr_eq]
      exact (adoptLoop_acc_mem _ _ _ _ _).mpr (Or.inr hs)
    · rw [applyTx_heap_eq, adoptLoop_heap]
      simp [hs]

theorem c9_adoption_survives_failure_witness :
    5 ∈ (applyTx 0 mgr0 heap0 cap0 (.transaction tx0)).mgr.snapshots ∧
    ((applyTx 0 mgr0 heap0 cap0 (.transaction tx0)).heap 5).backend = 0 :=
  (c9_adoption_survives_failure 0 mgr0 heap0 cap0 tx0
    ⟨2, by decide, .captureFailure 7, by decide⟩).2 5 (by decide)

/-- C10: `abortSnapshot(s)` affects only `s`'s registry membership — every
other snapshot stays registered and its heap object (diff and backend) is
untouched; `createSnapshot` adds exactly one new element and leaves all
previously registered snapshots' objects unchanged. -/
theorem c10_frame (mgr : SnapshotManager) (h : Heap) (s fresh backendArg : ObjId)
    (hfresh : fresh ∉ mgr.snapshots) :
    (∀ s2, s2 ≠ s →
       ((s2 ∈ (abortSnapshot mgr h s).2.1.snapshots ↔ s2 ∈ mgr.snapshots) ∧
        (abortSnapshot mgr h s).2.2 s2 = h s2)) ∧
    (createSnapshot mgr h fresh backendArg).2.1.snapshots = mgr.snapshots ++ [fresh] ∧
    (∀ s2, s2 ≠ fresh → (createSnapshot mgr h fresh backendArg).2.2 s2 = h s2) := by
  refine ⟨?_, ?_, ?_⟩
  · intro s2 hne
    exact ⟨by simp [abortSnapshot, List.mem_filter, hne], rfl⟩
  · simp [createSnapshot, setAdd, hfresh]
  · intro s2 hne
    simp [createSnapshot, hUpdate, hne]

theorem c10_frame_witness :
    (2 ∈ (abortSnapshot mgr0 heap0 1).2.1.snapshots ↔ 2 ∈ mgr0.snapshots) ∧
    (abortSnapshot mgr0 heap0 1).2.2 2 = heap0 2 :=
  (c10_frame mgr0 heap0 1 7 3 (by decide)).1 2 (by decide)

end JungleDB
